import Mathlib

/-!
Shallow embedding of the decision logic of the traffic-severity-prediction
repository (src/model_loader.py, src/utils.py, src/config.py,
src/components.py), together with theorems settling the frozen claims
about it.

Conventions of the embedding:
* Python floats are modelled as rationals (ℚ); the integer severity class
  as ℤ.
* The artifact files read by `load_model` / `load_scaler` are modelled by
  an explicit `ArtifactFile` state (missing file, file present but
  deserialization raises, file present and deserializes to a value);
  `predict_severity` is parameterized by the two file states instead of
  reading the filesystem.
* A Python function that can raise, where the caller catches the
  exception, is modelled with `Option`: `none` is the caught-exception /
  `None` outcome.
* The Streamlit session-state list `st.session_state.predictions` is
  passed explicitly as a `List PredictionRecord` argument.
-/

/-- The 8-field feature vector handed to `predict_severity`.  In the
source it is a plain list; the positional indices used by the code are
0 = longitude, 1 = latitude, 2 = distance, 3 = temperature, 4 = humidity,
5 = pressure, 6 = hour, 7 = time duration (`features[6]`, `features[2]`,
`features[7]` in model_loader.py lines 80-82). -/
structure FeatureVector where
  longitude : ℚ
  latitude : ℚ
  distance : ℚ
  temperature : ℚ
  humidity : ℚ
  pressure : ℚ
  hour : ℚ
  timeDuration : ℚ
deriving DecidableEq

/-- A deserialized classifier artifact.  Its `predict` method is abstracted
as a total function from (already scaled) features to the raw integer
prediction; `int(prediction)` in the source coerces the result to an
integer, which the ℤ codomain already captures. -/
structure Model where
  predictFn : FeatureVector → ℤ

/-- A deserialized scaler artifact.  sklearn's `StandardScaler.transform`
raises `NotFittedError` when the scaler has never been fitted, so the
embedding records a `fitted` flag next to the transform function. -/
structure Scaler where
  fitted : Bool
  transformFn : FeatureVector → FeatureVector

/-- `StandardScaler()` — the fresh, unfitted scaler that
`load_scaler` constructs when the scaler file is missing or fails to
deserialize (model_loader.py lines 47 and 55). -/
def freshStandardScaler : Scaler where
  fitted := false
  transformFn := id

/-- State of an artifact file on disk: absent, present but such that
`pickle.load` raises, or present and deserializing to `value`. -/
inductive ArtifactFile (α : Type) where
  | missing
  | corrupt
  | ok (value : α)

/-- model_loader.py `load_model` (lines 12-32): returns `None` when the
model file does not exist, and — because the whole body is wrapped in
`try/except` that returns `None` — also returns `None` when
deserialization raises. -/
def load_model : ArtifactFile Model → Option Model
  | .missing => none
  | .corrupt => none
  | .ok m => some m

/-- model_loader.py `load_scaler` (lines 36-55): returns a fresh
`StandardScaler()` when the scaler file does not exist, and — via its
`try/except` — also a fresh `StandardScaler()` when deserialization
raises. -/
def load_scaler : ArtifactFile Scaler → Scaler
  | .missing => freshStandardScaler
  | .corrupt => freshStandardScaler
  | .ok s => s

/-- `scaler.transform(features_array)` (model_loader.py line 98): succeeds
with the transformed vector when the scaler is fitted, raises
(`NotFittedError`, caught by the enclosing `try/except` of
`predict_severity`) when it is not. -/
def Scaler.transformChecked (s : Scaler) (f : FeatureVector) : Option FeatureVector :=
  if s.fitted then some (s.transformFn f) else none

/-- The rule-based prediction used when no model is loaded
(model_loader.py lines 80-94), translated branch for branch. -/
def fallbackRule (features : FeatureVector) : ℤ :=
  let hour := features.hour
  let distance := features.distance
  let duration := features.timeDuration
  if (hour = 7 ∨ hour = 8 ∨ hour = 9 ∨ hour = 16 ∨ hour = 17 ∨ hour = 18) ∧ distance < 10 then
    if duration > 60 then 3
    else if duration > 30 then 2
    else 1
  else if distance > 30 ∨ duration < 15 then 0
  else 1

/-- model_loader.py `predict_severity` (lines 57-105), parameterized by
the two artifact-file states.  Returns the predicted class, or `none`
when the body raises (the `except` clause returns `None`).  The only
raising step reachable in the embedding is `scaler.transform` on an
unfitted scaler. -/
def predict_severity (modelFile : ArtifactFile Model) (scalerFile : ArtifactFile Scaler)
    (features : FeatureVector) : Option ℤ :=
  let model := load_model modelFile
  let scaler := load_scaler scalerFile
  match model with
  | none => some (fallbackRule features)
  | some m =>
    match scaler.transformChecked features with
    | none => none
    | some normalized => some (m.predictFn normalized)

/-- Fallback policy exactly as the claim C1 words it (spec §4.1 step 2),
written independently of `fallbackRule` for comparison: if hour is in
the rush-hour set and distance < 10 then (3 if duration > 60, else 2 if
duration > 30, else 1); else if distance > 30 or duration < 15 then 0;
else 1. -/
def specRulePolicy (f : FeatureVector) : ℤ :=
  if (f.hour = 7 ∨ f.hour = 8 ∨ f.hour = 9 ∨ f.hour = 16 ∨ f.hour = 17 ∨ f.hour = 18)
      ∧ f.distance < 10 then
    if f.timeDuration > 60 then 3
    else if f.timeDuration > 30 then 2
    else 1
  else if f.distance > 30 ∨ f.timeDuration < 15 then 0
  else 1

/-- The prediction dictionary built in components.py lines 280-291: the
8 feature values plus severity value and label, in that key order.
The field modelling the `severity_class` key is called `severityClass`. -/
structure PredictionData where
  longitude : ℚ
  latitude : ℚ
  distance : ℚ
  temperature : ℚ
  humidity : ℚ
  pressure : ℚ
  hour : ℚ
  timeDuration : ℚ
  severityClass : ℤ
  severityLabel : String
deriving DecidableEq

/-- A stored prediction: the dictionary above with the `timestamp` key
that `save_prediction` adds (utils.py line 80) as its 11th field. -/
structure PredictionRecord where
  data : PredictionData
  timestamp : String
deriving DecidableEq

/-- utils.py `save_prediction` (lines 74-85): stamps the record, appends
it to the session list, and pops the front element when the length
exceeds 50.  `now` is the formatted current time. -/
def save_prediction (predictions : List PredictionRecord) (predictionData : PredictionData)
    (now : String) : List PredictionRecord :=
  let record : PredictionRecord := ⟨predictionData, now⟩
  let appended := predictions ++ [record]
  if appended.length > 50 then appended.tail else appended

/-- Folding `save_prediction` over a list of (data, timestamp) pairs —
appending many records in order. -/
def appendAll (store : List PredictionRecord)
    (items : List (PredictionData × String)) : List PredictionRecord :=
  items.foldl (fun s it => save_prediction s it.1 it.2) store

/-- The record a (data, timestamp) pair becomes when appended. -/
def mkRecord (it : PredictionData × String) : PredictionRecord :=
  ⟨it.1, it.2⟩

/-- utils.py `get_predictions_dataframe` (lines 95-100): `None` when the
session list is falsy (empty), otherwise a dataframe holding exactly the
stored records in order (modelled as the list itself). -/
def get_predictions_dataframe (predictions : List PredictionRecord) :
    Option (List PredictionRecord) :=
  if predictions.isEmpty then none else some predictions

/-- config.py `SEVERITY_CLASSES` (lines 63-68) as a lookup from the
integer key to the configured entry; `none` models a failed dict
lookup. -/
structure SeverityInfo where
  label : String
  color : String
  description : String
deriving DecidableEq

/-- The `SEVERITY_CLASSES` dictionary of config.py. -/
def SEVERITY_CLASSES (c : ℤ) : Option SeverityInfo :=
  if c = 0 then some ⟨"Minimal", "#4CAF50", "Minimal impact on traffic flow"⟩
  else if c = 1 then some ⟨"Minor", "#FFC107", "Minor delays and slowdowns"⟩
  else if c = 2 then some ⟨"Moderate", "#FF9800", "Moderate congestion affecting travel time"⟩
  else if c = 3 then some ⟨"Severe", "#F44336", "Severe congestion with significant delays"⟩
  else none

/-- utils.py `get_severity_color` (lines 87-89):
`SEVERITY_CLASSES.get(severity_class, {}).get("color", "#CCCCCC")`. -/
def get_severity_color (c : ℤ) : String :=
  match SEVERITY_CLASSES c with
  | some info => info.color
  | none => "#CCCCCC"

/-- utils.py `get_severity_label` (lines 91-93):
`SEVERITY_CLASSES.get(severity_class, {}).get("label", "Unknown")`. -/
def get_severity_label (c : ℤ) : String :=
  match SEVERITY_CLASSES c with
  | some info => info.label
  | none => "Unknown"

/-- Sum of a list of rationals. -/
def qSum (l : List ℚ) : ℚ := l.foldr (· + ·) 0

/-- Arithmetic mean (ℚ division: 0 on the empty list). -/
def qMean (l : List ℚ) : ℚ := qSum l / (l.length : ℚ)

/-- Centered sum of products Σ (xᵢ - x̄)(yᵢ - ȳ), the shared numerator
kernel of the Pearson correlation computed by pandas `Series.corr`. -/
def sxy (xs ys : List ℚ) : ℚ :=
  qSum (List.zipWith (fun a b => (a - qMean xs) * (b - qMean ys)) xs ys)

/-- The square of the Pearson correlation coefficient of two columns:
`corrSq xs ys = Sxy² / (Sxx ⬝ Syy)`.  The coefficient itself,
`Sxy / (√Sxx ⬝ √Syy)`, is irrational in general, so the embedding
carries its square, a rational; the claim-settling theorem relates the
two through `Real.sqrt`, which is strictly monotone on nonnegatives, so
sorting by the square is sorting by the absolute coefficient. -/
def corrSq (xs ys : List ℚ) : ℚ :=
  (sxy xs ys) ^ 2 / (sxy xs xs * sxy ys ys)

/-- The parameter columns iterated by utils.py
`plot_parameter_importance` (lines 141-142), paired with the record
accessor that models the dataframe column of that name. -/
def paramAccessors : List (String × (PredictionRecord → ℚ)) :=
  [("longitude", fun r => r.data.longitude),
   ("latitude", fun r => r.data.latitude),
   ("distance", fun r => r.data.distance),
   ("temperature", fun r => r.data.temperature),
   ("humidity", fun r => r.data.humidity),
   ("pressure", fun r => r.data.pressure),
   ("hour", fun r => r.data.hour),
   ("time_duration", fun r => r.data.timeDuration)]

/-- The `severity_class` column of the dataframe, as rationals. -/
def sevColumn (records : List PredictionRecord) : List ℚ :=
  records.map (fun r => (r.data.severityClass : ℚ))

/-- Descending comparison on the squared-correlation component, the
order `sort_values(by="Correlation", ascending=False)` realizes. -/
def corrDesc (a b : String × ℚ) : Bool := decide (b.2 ≤ a.2)

/-- utils.py `plot_parameter_importance` (lines 133-169), reduced to the
data it computes: `None` when the dataframe is `None`, empty, or shorter
than 5 rows; otherwise the (parameter, correlation) table sorted
descending.  The correlation component is carried as its square
(see `corrSq`). -/
def plot_parameter_importance (df : Option (List PredictionRecord)) :
    Option (List (String × ℚ)) :=
  match df with
  | none => none
  | some records =>
    if records.isEmpty ∨ records.length < 5 then none
    else
      let ys := sevColumn records
      let corrData := paramAccessors.map (fun pa => (pa.1, corrSq (records.map pa.2) ys))
      some (corrData.mergeSort corrDesc)

/-- A cell of the exported CSV, keeping the Python value it renders. -/
inductive CsvCell where
  | num (q : ℚ)
  | int (z : ℤ)
  | str (s : String)
deriving DecidableEq

/-- The dataframe column names, in the key order of the prediction
dictionary (components.py lines 280-291) followed by the timestamp added
by `save_prediction` — the header order `df.to_csv` emits. -/
def csvHeader : List String :=
  ["longitude", "latitude", "distance", "temperature", "humidity", "pressure",
   "hour", "time_duration", "severity_class", "severity_label", "timestamp"]

/-- The CSV row of one record, cells in header order. -/
def PredictionRecord.toRow (r : PredictionRecord) : List CsvCell :=
  [.num r.data.longitude, .num r.data.latitude, .num r.data.distance,
   .num r.data.temperature, .num r.data.humidity, .num r.data.pressure,
   .num r.data.hour, .num r.data.timeDuration, .int r.data.severityClass,
   .str r.data.severityLabel, .str r.timestamp]

/-- `df.to_csv(index=False)` (utils.py line 176) as a list of CSV lines:
the header line followed by one line per record, in dataframe order. -/
def dfToCsv (records : List PredictionRecord) : List (List CsvCell) :=
  (csvHeader.map CsvCell.str) :: records.map PredictionRecord.toRow

/-- utils.py `generate_download_link` (lines 171-179), reduced to the CSV
it embeds in the link: `None` when the dataframe is `None` or empty,
otherwise the CSV lines of `dfToCsv`. -/
def generate_download_link (df : Option (List PredictionRecord)) :
    Option (List (List CsvCell)) :=
  match df with
  | none => none
  | some records => if records.isEmpty then none else some (dfToCsv records)

/-- The worked example of spec §8: features
(-73.9857, 40.7484, 5.0, 25.0, 65.0, 1013.0, 8, 75). -/
def exampleFeatures : FeatureVector :=
  ⟨-73.9857, 40.7484, 5, 25, 65, 1013, 8, 75⟩

/-- A second concrete vector agreeing with `exampleFeatures` on hour,
distance and time duration but nowhere else. -/
def exampleFeatures' : FeatureVector :=
  ⟨12.5, -3.25, 5, -10, 20, 980, 8, 75⟩

/-- A concrete prediction dictionary used by witnesses. -/
def demoData (i : ℕ) : PredictionData :=
  ⟨(i : ℚ), 0, 0, 0, 0, 0, 0, 0, 0, "Minimal"⟩

/-- A concrete stored record used by witnesses. -/
def demoRecord (i : ℕ) : PredictionRecord :=
  ⟨demoData i, "2025-01-01 00:00:00"⟩

/-- 51 concrete (data, timestamp) pairs used by the C3 witness. -/
def demoItems51 : List (PredictionData × String) :=
  (List.range 51).map (fun i => (demoData i, "2025-01-01 00:00:00"))

/-- Five concrete records whose feature columns and severity column all
have positive variance (record i has every numeric field equal to i),
used by the C6 witness. -/
def demoHistory5 : List PredictionRecord :=
  (List.range 5).map (fun (i : ℕ) =>
    ⟨⟨(i : ℚ), (i : ℚ), (i : ℚ), (i : ℚ), (i : ℚ), (i : ℚ), (i : ℚ), (i : ℚ),
      (i : ℤ), "Minimal"⟩, "2025-01-01 00:00:00"⟩)

/-- Four concrete records (one below the correlation threshold), used by
the C6 witness. -/
def demoHistory4 : List PredictionRecord := demoHistory5.tail

/-- C1: for every feature vector, when no model artifact is loaded,
`predict_severity` returns exactly the class of the fallback rule policy
evaluated in precedence order: rush hour and distance < 10 gives 3/2/1 by
duration thresholds 60 and 30, else distance > 30 or duration < 15 gives
0, else 1. -/
theorem c1_fallback_policy (modelFile : ArtifactFile Model) (scalerFile : ArtifactFile Scaler)
    (features : FeatureVector) (h : load_model modelFile = none) :
    predict_severity modelFile scalerFile features = some (specRulePolicy features) := by
  unfold predict_severity
  rw [h]
  rfl

/-- Witness for C1 at the worked example of spec §8: no artifacts, rush
hour 8, distance 5 < 10, duration 75 > 60, class Severe(3). -/
theorem c1_fallback_policy_witness :
    load_model .missing = none
    ∧ predict_severity .missing .missing exampleFeatures = some (specRulePolicy exampleFeatures)
    ∧ specRulePolicy exampleFeatures = 3 :=
  ⟨rfl, c1_fallback_policy .missing .missing exampleFeatures rfl, by decide⟩

/-- C2 counterexample: with a corrupt classifier artifact (deserialization
fails) and even a well-fitted scaler, `predict_severity` on the spec's
example vector returns the fallback-rule class `some 3`, not the failure
value `none` the claim demands. -/
theorem c2_counterexample :
    predict_severity .corrupt (.ok ⟨true, id⟩) exampleFeatures
        = some (fallbackRule exampleFeatures)
    ∧ predict_severity .corrupt (.ok ⟨true, id⟩) exampleFeatures ≠ none :=
  ⟨rfl, by decide⟩

/-- C2 amended: when deserializing the classifier artifact fails,
`load_model` catches the exception and returns `None`, so
`predict_severity` treats the model as absent and returns the fallback
rule class for every feature vector and scaler state — never the failure
value. -/
theorem c2_corrupt_model_falls_back (scalerFile : ArtifactFile Scaler)
    (features : FeatureVector) :
    predict_severity .corrupt scalerFile features = some (fallbackRule features)
    ∧ load_model .corrupt = none :=
  ⟨rfl, rfl⟩

/-- C4 counterexample: with the classifier present and the scaler file
missing, `load_scaler` yields a fresh unfitted `StandardScaler()`, whose
`transform` raises, so `predict_severity` returns the failure value
`none` — not the fallback-rule class the claim demands. -/
theorem c4_counterexample :
    predict_severity (.ok ⟨fun _ => 2⟩) .missing exampleFeatures = none
    ∧ some (fallbackRule exampleFeatures) ≠ (none : Option ℤ) :=
  ⟨rfl, by decide⟩

/-- C4 amended: a missing or malformed classifier leads to the absent
state and the fallback rule policy; but a missing or malformed scaler
with the classifier present leads to the failure value `none` (the fresh
unfitted scaler's transform raises), not to the fallback policy. -/
theorem c4_absent_artifacts (features : FeatureVector) :
    (∀ scalerFile, predict_severity .missing scalerFile features = some (fallbackRule features))
    ∧ (∀ m : Model, predict_severity (.ok m) .missing features = none)
    ∧ (∀ m : Model, predict_severity (.ok m) .corrupt features = none) :=
  ⟨fun _ => rfl, fun _ => rfl, fun _ => rfl⟩

/-- C5 counterexample: on the empty history store,
`get_predictions_dataframe` returns `none` (the unavailable value), not
the empty sequence `some []` the claim demands. -/
theorem c5_counterexample :
    get_predictions_dataframe [] = none
    ∧ get_predictions_dataframe [] ≠ some [] :=
  ⟨rfl, by decide⟩

/-- C5 amended: snapshot on an empty store returns the unavailable value
`none` rather than an empty sequence; on a nonempty store it returns
exactly the stored records, and being a pure function of the store it
never mutates it. -/
theorem c5_snapshot (l : List PredictionRecord) (h : l ≠ []) :
    get_predictions_dataframe [] = none ∧ get_predictions_dataframe l = some l := by
  refine ⟨rfl, ?_⟩
  unfold get_predictions_dataframe
  simp [h]

/-- Witness for C5 at a one-record store. -/
theorem c5_snapshot_witness :
    get_predictions_dataframe [] = none
    ∧ get_predictions_dataframe [demoRecord 0] = some [demoRecord 0] :=
  c5_snapshot [demoRecord 0] (by simp)

/-- C7 counterexample: on an empty record sequence the export produces no
CSV at all (`generate_download_link` returns `none`), not the 1-line
header-only CSV the claim demands for N = 0. -/
theorem c7_counterexample :
    generate_download_link (get_predictions_dataframe ([] : List PredictionRecord)) = none
    ∧ generate_download_link (get_predictions_dataframe ([] : List PredictionRecord))
        ≠ some (dfToCsv []) :=
  ⟨rfl, by decide⟩

/-- C7 amended: for every nonempty sequence of N ≥ 1 records the export
produces N+1 CSV lines — the header line carrying exactly the 11 field
names in the order longitude, latitude, distance, temperature, humidity,
pressure, hour, time_duration, severity_class, severity_label, timestamp,
followed by one row per record in snapshot order; on an empty sequence it
returns `none` instead of a header-only CSV. -/
theorem c7_export_csv (l : List PredictionRecord) (h : l ≠ []) :
    generate_download_link (get_predictions_dataframe l)
      = some ((csvHeader.map CsvCell.str) :: l.map PredictionRecord.toRow)
    ∧ ((csvHeader.map CsvCell.str) :: l.map PredictionRecord.toRow).length = l.length + 1
    ∧ csvHeader.length = 11 := by
  refine ⟨?_, by simp, by decide⟩
  unfold generate_download_link get_predictions_dataframe dfToCsv
  simp [h]

/-- Witness for C7 at a one-record store: 2 CSV lines. -/
theorem c7_export_csv_witness :
    generate_download_link (get_predictions_dataframe [demoRecord 0])
      = some ((csvHeader.map CsvCell.str) :: [demoRecord 0].map PredictionRecord.toRow)
    ∧ ((csvHeader.map CsvCell.str) :: [demoRecord 0].map PredictionRecord.toRow).length
        = [demoRecord 0].length + 1
    ∧ csvHeader.length = 11 :=
  c7_export_csv [demoRecord 0] (by simp)

/-- C8: when classifier and (fitted) scaler artifacts are both loaded,
`predict_severity` returns the model's raw prediction on the scaled
feature vector, with no range check against {0,1,2,3}. -/
theorem c8_loaded_model_raw (m : Model) (s : Scaler) (f : FeatureVector)
    (h : s.fitted = true) :
    predict_severity (.ok m) (.ok s) f = some (m.predictFn (s.transformFn f)) := by
  simp [predict_severity, load_model, load_scaler, Scaler.transformChecked, h]

/-- Witness for C8 with a model whose raw prediction 7 lies outside
{0,1,2,3}: the value is returned unchecked. -/
theorem c8_loaded_model_raw_witness :
    (⟨true, id⟩ : Scaler).fitted = true
    ∧ predict_severity (.ok ⟨fun _ => 7⟩) (.ok ⟨true, id⟩) exampleFeatures = some 7
    ∧ ¬ (0 ≤ (7 : ℤ) ∧ (7 : ℤ) ≤ 3) :=
  ⟨rfl, c8_loaded_model_raw ⟨fun _ => 7⟩ ⟨true, id⟩ exampleFeatures rfl, by decide⟩

/-- C9: with no loaded artifacts the prediction is total (always `some`
of the fallback class) and depends only on hour, distance and time
duration: two vectors agreeing on those three fields get the same class,
whatever their longitude, latitude, temperature, humidity, pressure and
whatever the scaler file state. -/
theorem c9_fallback_depends_on_three_fields (sf sf' : ArtifactFile Scaler)
    (f g : FeatureVector) (hh : f.hour = g.hour) (hd : f.distance = g.distance)
    (ht : f.timeDuration = g.timeDuration) :
    predict_severity .missing sf f = some (fallbackRule f)
    ∧ predict_severity .missing sf' g = predict_severity .missing sf f := by
  have hfg : fallbackRule g = fallbackRule f := by
    simp only [fallbackRule, hh, hd, ht]
  exact ⟨rfl, by simp [predict_severity, load_model, hfg]⟩

/-- Witness for C9: the spec example and a vector differing in every
rule-irrelevant field (and a different scaler state) get the same class. -/
theorem c9_fallback_depends_on_three_fields_witness :
    predict_severity .missing .missing exampleFeatures = some (fallbackRule exampleFeatures)
    ∧ predict_severity .missing .corrupt exampleFeatures'
        = predict_severity .missing .missing exampleFeatures :=
  c9_fallback_depends_on_three_fields .missing .corrupt exampleFeatures exampleFeatures'
    (by decide) (by decide) (by decide)

/-- C10: the label and color lookups are total — every class value
outside {0,1,2,3} gets the defaults "Unknown" and "#CCCCCC", and the
values in {0,1,2,3} get the fixed configured label and color. -/
theorem c10_severity_lookup_total (c : ℤ) :
    ((c ≠ 0 ∧ c ≠ 1 ∧ c ≠ 2 ∧ c ≠ 3) →
      get_severity_label c = "Unknown" ∧ get_severity_color c = "#CCCCCC")
    ∧ get_severity_label 0 = "Minimal" ∧ get_severity_color 0 = "#4CAF50"
    ∧ get_severity_label 1 = "Minor" ∧ get_severity_color 1 = "#FFC107"
    ∧ get_severity_label 2 = "Moderate" ∧ get_severity_color 2 = "#FF9800"
    ∧ get_severity_label 3 = "Severe" ∧ get_severity_color 3 = "#F44336" := by
  refine ⟨?_, rfl, rfl, rfl, rfl, rfl, rfl, rfl, rfl⟩
  rintro ⟨h0, h1, h2, h3⟩
  unfold get_severity_label get_severity_color SEVERITY_CLASSES
  rw [if_neg h0, if_neg h1, if_neg h2, if_neg h3]
  exact ⟨rfl, rfl⟩

/-- Witness for C10 at the out-of-range class 7. -/
theorem c10_severity_lookup_total_witness :
    get_severity_label 7 = "Unknown" ∧ get_severity_color 7 = "#CCCCCC" :=
  (c10_severity_lookup_total 7).1 (by decide)

/-- Each `save_prediction` step keeps the retained records a contiguous
suffix of everything appended so far, in insertion order. -/
theorem appendAll_suffix (items : List (PredictionData × String)) :
    ∀ store : List PredictionRecord,
      appendAll store items <:+ store ++ items.map mkRecord := by
  induction items with
  | nil => intro s; simp [appendAll]
  | cons it items ih =>
    intro s
    show appendAll (save_prediction s it.1 it.2) items
      <:+ s ++ (mkRecord it :: items.map mkRecord)
    have h1 : save_prediction s it.1 it.2 <:+ s ++ [(⟨it.1, it.2⟩ : PredictionRecord)] := by
      unfold save_prediction
      by_cases hc : (s ++ [(⟨it.1, it.2⟩ : PredictionRecord)]).length > 50
      · rw [if_pos hc]
        exact List.tail_suffix _
      · rw [if_neg hc]
    refine (ih (save_prediction s it.1 it.2)).trans ?_
    obtain ⟨u, hu⟩ := h1
    refine ⟨u, ?_⟩
    rw [← List.append_assoc, hu, List.append_assoc]
    rfl

/-- Length of the store after appending a batch: grows by one per append
and saturates at the 50-record cap. -/
theorem appendAll_length (items : List (PredictionData × String)) :
    ∀ store : List PredictionRecord, store.length ≤ 50 →
      (appendAll store items).length = min (store.length + items.length) 50 := by
  induction items with
  | nil => intro s hs; simp [appendAll]; omega
  | cons it items ih =>
    intro s hs
    show (appendAll (save_prediction s it.1 it.2) items).length = _
    have hsave : (save_prediction s it.1 it.2).length = min (s.length + 1) 50 := by
      unfold save_prediction
      by_cases hc : (s ++ [(⟨it.1, it.2⟩ : PredictionRecord)]).length > 50
      · rw [if_pos hc]
        simp only [List.length_tail, List.length_append, List.length_singleton] at hc ⊢
        omega
      · rw [if_neg hc]
        simp only [List.length_append, List.length_singleton] at hc ⊢
        omega
    have hle : (save_prediction s it.1 it.2).length ≤ 50 := by rw [hsave]; omega
    rw [ih _ hle, hsave]
    simp only [List.length_cons]
    omega

/-- C3: the history store never exceeds 50 records and evicts FIFO —
from any store of length ≤ 50, `save_prediction` keeps length ≤ 50 and
the result is a suffix of the old store with the new record appended
(insertion order preserved, only the oldest evicted); and appending 51
records to an empty store leaves exactly the last 50 appended, in order
(the tail of the appended sequence). -/
theorem c3_history_bounded_fifo :
    (∀ (store : List PredictionRecord) (d : PredictionData) (t : String),
        store.length ≤ 50 →
          (save_prediction store d t).length ≤ 50
          ∧ save_prediction store d t <:+ store ++ [⟨d, t⟩])
    ∧ ∀ items : List (PredictionData × String), items.length = 51 →
        appendAll [] items = (items.map mkRecord).tail := by
  constructor
  · intro store d t h
    constructor
    · have h1 := appendAll_length [(d, t)] store h
      simp only [appendAll, List.foldl_cons, List.foldl_nil, List.length_cons,
        List.length_nil] at h1
      rw [h1]
      omega
    · have h2 := appendAll_suffix [(d, t)] store
      simpa [appendAll, mkRecord] using h2
  · intro items hlen
    have h1 := appendAll_length items [] (by simp)
    have h2 := appendAll_suffix items []
    simp only [List.length_nil, Nat.zero_add, List.nil_append] at h1 h2
    rw [hlen] at h1
    norm_num at h1
    rw [List.suffix_iff_eq_drop] at h2
    rw [h2, h1, List.length_map, hlen]
    norm_num [List.drop_one]

/-- Witness for C3: one append to the empty store, and the 51-record
batch of `demoItems51`. -/
theorem c3_history_bounded_fifo_witness :
    ((save_prediction [] (demoData 0) "2025-01-01 00:00:00").length ≤ 50
      ∧ save_prediction [] (demoData 0) "2025-01-01 00:00:00"
          <:+ [] ++ [⟨demoData 0, "2025-01-01 00:00:00"⟩])
    ∧ appendAll [] demoItems51 = (demoItems51.map mkRecord).tail :=
  ⟨c3_history_bounded_fifo.1 [] (demoData 0) "2025-01-01 00:00:00" (by simp),
   c3_history_bounded_fifo.2 demoItems51 (by simp [demoItems51])⟩

/-- With positive variances, the square root of the squared correlation
is the absolute Pearson coefficient |Sxy| / (√Sxx ⬝ √Syy). -/
theorem sqrt_corrSq (xs ys : List ℚ) (hx : 0 < sxy xs xs) (hy : 0 < sxy ys ys) :
    Real.sqrt ((corrSq xs ys : ℚ) : ℝ)
      = |((sxy xs ys : ℚ) : ℝ)|
        / (Real.sqrt ((sxy xs xs : ℚ) : ℝ) * Real.sqrt ((sxy ys ys : ℚ) : ℝ)) := by
  have hx' : (0:ℝ) ≤ ((sxy xs xs : ℚ) : ℝ) := by exact_mod_cast hx.le
  have hy' : (0:ℝ) ≤ ((sxy ys ys : ℚ) : ℝ) := by exact_mod_cast hy.le
  have hcast : ((corrSq xs ys : ℚ) : ℝ)
      = ((sxy xs ys : ℚ) : ℝ) ^ 2 / (((sxy xs xs : ℚ) : ℝ) * ((sxy ys ys : ℚ) : ℝ)) := by
    unfold corrSq
    push_cast
    ring
  rw [hcast, Real.sqrt_div' _ (mul_nonneg hx' hy'), Real.sqrt_sq_eq_abs,
    Real.sqrt_mul hx']

/-- The descending comparison on correlations is transitive. -/
theorem corrDesc_trans : ∀ a b c : String × ℚ,
    corrDesc a b = true → corrDesc b c = true → corrDesc a c = true := by
  intro a b c h1 h2
  simp only [corrDesc, decide_eq_true_eq] at *
  exact le_trans h2 h1

/-- The descending comparison on correlations is total. -/
theorem corrDesc_total : ∀ a b : String × ℚ, (corrDesc a b || corrDesc b a) = true := by
  intro a b
  simp only [corrDesc, Bool.or_eq_true, decide_eq_true_eq]
  exact le_total b.2 a.2

/-- C6: on fewer than 5 records the correlation view returns the
insufficient-data value `none` (not zero correlations); on 5 or more it
returns, for the eight features, the pairs of feature name and Pearson
correlation with the severity column, sorted in descending order of
absolute correlation.  The embedding carries the square of each
coefficient; mapping each entry through `Real.sqrt` yields the
(name, |Pearson|) pairs themselves, which — when every feature column
and the severity column have positive variance, so that the coefficients
are defined — form a permutation of the eight
(name, |Sxy| / (√Sxx ⬝ √Syy)) pairs and are likewise descending. -/
theorem c6_feature_correlations (l : List PredictionRecord) :
    (l.length < 5 → plot_parameter_importance (get_predictions_dataframe l) = none)
    ∧ (5 ≤ l.length →
        ∃ out,
          plot_parameter_importance (get_predictions_dataframe l) = some out
          ∧ List.Perm out (paramAccessors.map (fun pa =>
              (pa.1, corrSq (l.map pa.2) (sevColumn l))))
          ∧ List.Pairwise (fun a b => b.2 ≤ a.2) out
          ∧ ((∀ pa ∈ paramAccessors, 0 < sxy (l.map pa.2) (l.map pa.2)) →
              0 < sxy (sevColumn l) (sevColumn l) →
                List.Pairwise (fun a b => b.2 ≤ a.2)
                  (out.map (fun e => ((e.1 : String), Real.sqrt ((e.2 : ℚ) : ℝ))))
                ∧ List.Perm (out.map (fun e => ((e.1 : String), Real.sqrt ((e.2 : ℚ) : ℝ))))
                    (paramAccessors.map (fun pa =>
                      (pa.1, |((sxy (l.map pa.2) (sevColumn l) : ℚ) : ℝ)| /
                        (Real.sqrt ((sxy (l.map pa.2) (l.map pa.2) : ℚ) : ℝ) *
                         Real.sqrt ((sxy (sevColumn l) (sevColumn l) : ℚ) : ℝ))))))) := by
  have hsome : plot_parameter_importance (some l)
      = if l.isEmpty = true ∨ l.length < 5 then none
        else some ((paramAccessors.map (fun pa =>
          (pa.1, corrSq (l.map pa.2) (sevColumn l)))).mergeSort corrDesc) := rfl
  constructor
  · intro h5
    by_cases hl : l.isEmpty = true
    · have hdf : get_predictions_dataframe l = none := by
        unfold get_predictions_dataframe
        rw [if_pos hl]
      rw [hdf]
      rfl
    · have hdf : get_predictions_dataframe l = some l := by
        unfold get_predictions_dataframe
        rw [if_neg hl]
      rw [hdf, hsome, if_pos (Or.inr h5)]
  · intro h5
    have hne : l.isEmpty = false := by
      cases l
      · simp at h5
      · rfl
    have hdf : get_predictions_dataframe l = some l := by
      unfold get_predictions_dataframe
      rw [if_neg (by simp [hne])]
    have hplot : plot_parameter_importance (get_predictions_dataframe l)
        = some ((paramAccessors.map (fun pa =>
            (pa.1, corrSq (l.map pa.2) (sevColumn l)))).mergeSort corrDesc) := by
      rw [hdf, hsome, if_neg (by simp [hne]; omega)]
    refine ⟨_, hplot, List.mergeSort_perm _ corrDesc, ?_, ?_⟩
    · have hs := List.sorted_mergeSort corrDesc_trans corrDesc_total
        (paramAccessors.map (fun pa => (pa.1, corrSq (l.map pa.2) (sevColumn l))))
      exact hs.imp (fun h => by simpa [corrDesc] using h)
    · intro hpos hsev
      constructor
      · have hs := List.sorted_mergeSort corrDesc_trans corrDesc_total
          (paramAccessors.map (fun pa => (pa.1, corrSq (l.map pa.2) (sevColumn l))))
        refine List.Pairwise.map _ ?_ hs
        intro a b h
        have h' : b.2 ≤ a.2 := by simpa [corrDesc] using h
        exact Real.sqrt_le_sqrt (by exact_mod_cast h')
      · have hperm := (List.mergeSort_perm (paramAccessors.map (fun pa =>
            (pa.1, corrSq (l.map pa.2) (sevColumn l)))) corrDesc).map
            (fun e => ((e.1 : String), Real.sqrt ((e.2 : ℚ) : ℝ)))
        refine hperm.trans ?_
        rw [List.map_map]
        refine List.Perm.of_eq (List.map_congr_left ?_)
        intro pa hpa
        simp only [Function.comp_apply]
        rw [sqrt_corrSq _ _ (hpos pa hpa) hsev]

/-- Witness for C6: four records give `none`; the five records of
`demoHistory5` (all columns of positive variance) give a sorted
correlation table. -/
theorem c6_feature_correlations_witness :
    plot_parameter_importance (get_predictions_dataframe demoHistory4) = none
    ∧ ∃ out,
        plot_parameter_importance (get_predictions_dataframe demoHistory5) = some out
        ∧ List.Pairwise (fun a b => b.2 ≤ a.2) out
        ∧ List.Pairwise (fun a b => b.2 ≤ a.2)
            (out.map (fun e => ((e.1 : String), Real.sqrt ((e.2 : ℚ) : ℝ)))) := by
  refine ⟨(c6_feature_correlations demoHistory4).1 (by decide), ?_⟩
  obtain ⟨out, h1, h2, h3, h4⟩ := (c6_feature_correlations demoHistory5).2 (by decide)
  have hpos : ∀ pa ∈ paramAccessors,
      0 < sxy (demoHistory5.map pa.2) (demoHistory5.map pa.2) := by
    norm_num [paramAccessors, demoHistory5, sxy, qSum, qMean, List.forall_mem_cons,
      List.range_succ]
  have hsev : 0 < sxy (sevColumn demoHistory5) (sevColumn demoHistory5) := by
    norm_num [sevColumn, demoHistory5, sxy, qSum, qMean, List.range_succ]
  have h5 := h4 hpos hsev
  exact ⟨out, h1, h3, h5.1⟩
